import Mathlib

/-!
Shallow embedding of the bestbuy-product-price-tracker ingestion core.

The Python sources embedded here are:
  * `app/utils/validate_input.py`   (exclusive-or identifier validation)
  * `app/utils/data_cleaner.py`     (`DataCleaner.clean_product_data` and helpers)
  * `app/services/product_processor.py` (`ProductProcessor.process_product_data`)
  * `app/db/products_crud.py`       (`ProductsCRUD` over an in-memory table)
  * `app/db/jobs_crud.py`           (`JobsCRUD.update_job`)
  * `app/services/database_handler.py` (`DatabaseHandler` store/update paths)
  * `app/services/product_service.py`  (`ProductService` decision logic)
  * `app/tasks/celery_tasks.py`     (`scrape_task`, `scrape_url` persistence part)
  * `app/utils/retry_with_backoff.py`  (`retry_with_backoff`)

Modelling conventions:
  * Python dict-shaped records become structures; a key that may be absent
    in the dict is an `Option` field.
  * Python exceptions become `Except PyErr`; an exception object is a
    message together with its `__cause__` chain.
  * Timestamps are modelled as a calendar day plus a time-of-day counter,
    which is all the code observes (`.date()` comparisons and equality).
  * Monetary floats are modelled as exact rationals; the only values the
    claims evaluate are exactly representable.
  * The relational store and the Mongo collection become lists; SQLAlchemy
    `filter(...).first()` becomes a first-match scan, and the observable
    storage fault (unique-key violation on insert) makes `insert_product`
    return `none` as the caught `SQLAlchemyError` branch does.
-/

/-- A Python exception value: its message and its `__cause__` chain
(set by `raise ... from e`). -/
inductive PyErr where
  | mk (msg : String) (cause : Option PyErr)

/-- `str(e)` for a modelled exception: Python prints the message. -/
def PyErr.msg : PyErr → String
  | .mk m _ => m

/-- The `__cause__` of a modelled exception. -/
def PyErr.cause : PyErr → Option PyErr
  | .mk _ c => c

/-- A timezone-local datetime, at the resolution the code observes:
`day` is the calendar date ordinal (what `.date()` returns) and `tod`
distinguishes instants within a day. -/
structure PyDateTime where
  day : Nat
  tod : Nat
deriving DecidableEq, Repr

/-- `datetime.date()`: the calendar-date part of a datetime. -/
def PyDateTime.date (d : PyDateTime) : Nat := d.day

/-- Python truthiness of an optional integer argument:
`bool(None) = bool(0) = False`. -/
def truthyNat : Option Nat → Bool
  | none => false
  | some n => n != 0

/-- Python truthiness of an optional string argument:
`bool(None) = bool("") = False`. -/
def truthyStr : Option String → Bool
  | none => false
  | some s => s != ""

/-- `validate_input.validate_input_product_id_web_code`:
`bool(product_id) != bool(web_code)`. -/
def validate_input_product_id_web_code (product_id : Option Nat)
    (web_code : Option String) : Bool :=
  truthyNat product_id != truthyStr web_code

/-- First element satisfying `p` (SQLAlchemy `query.filter(...).first()`). -/
def findFirstP {α : Type} (p : α → Bool) : List α → Option α
  | [] => none
  | x :: t => if p x then some x else findFirstP p t

/-- Replace the first element satisfying `p` by `f` of it (an ORM update
of the row returned by `.first()`, committed in place). -/
def replaceFirstP {α : Type} (p : α → Bool) (f : α → α) : List α → List α
  | [] => []
  | x :: t => if p x then f x :: t else x :: replaceFirstP p f t

/-- A row of the `products` table (`products_crud.Products`). -/
structure Products where
  product_id : Nat
  web_code : String
  title : String
  model : String
  url : String
  price : Int
  save : Int
  created_at : PyDateTime
  updated_at : PyDateTime
deriving DecidableEq, Repr

/-- The document `DatabaseHandler._store_in_mongo` writes to the Mongo
price-history collection. -/
structure MongoDoc where
  web_code : String
  price : Int
  save : Int
  date : PyDateTime
deriving DecidableEq, Repr

/-- The two product stores: the relational `products` table (with its
autoincrement counter) and the append-only Mongo history collection. -/
structure DBState where
  products : List Products
  mongo : List MongoDoc
  next_id : Nat
deriving DecidableEq, Repr

/-- The processed product dict that flows through the ingestion path
(output of `ProductProcessor.process_product_data`, prices already in
cents).  `product_id` is the key `handle_existing_product` adds before
updating; absent on the insert path. -/
structure ProductDetails where
  title : String
  model : String
  web_code : String
  url : String
  price : Int
  save : Int
  product_id : Option Nat
deriving DecidableEq, Repr

/-- The `updates` dict built by `DatabaseHandler.update_existing_product`:
`{"price": ..., "save": ...}`. -/
structure ProductUpdates where
  price : Int
  save : Int
deriving DecidableEq, Repr

/-- `ProductsCRUD.insert_product`: adds a row with a fresh autoincrement
key.  A duplicate `web_code` violates the unique column constraint, which
the source catches as `SQLAlchemyError` and turns into `None`. -/
def ProductsCRUD.insert_product (db : DBState) (now : PyDateTime)
    (web_code title model url : String) (price save : Int) :
    DBState × Option Nat :=
  if db.products.any (fun p => p.web_code == web_code) then
    (db, none)
  else
    let row : Products :=
      { product_id := db.next_id, web_code := web_code, title := title,
        model := model, url := url, price := price, save := save,
        created_at := now, updated_at := now }
    ({ db with products := db.products ++ [row], next_id := db.next_id + 1 },
     some db.next_id)

/-- `ProductsCRUD.update_product`: fetches the first row with the given
`product_id`; if found, sets the updated fields and `updated_at` and
commits, returning `True`; otherwise returns `False`. -/
def ProductsCRUD.update_product (db : DBState) (now : PyDateTime)
    (product_id : Nat) (updates : ProductUpdates) : DBState × Bool :=
  match findFirstP (fun p => p.product_id == product_id) db.products with
  | none => (db, false)
  | some _ =>
    let rows := replaceFirstP (fun p => p.product_id == product_id)
      (fun p => { p with price := updates.price, save := updates.save,
                         updated_at := now })
      db.products
    ({ db with products := rows }, true)

/-- `ProductsCRUD.get_product`: validates the exclusive-or of the two
identifiers, then queries by `product_id` if it is truthy, else by
`web_code`.  The `Bool` records whether a session query was issued. -/
def ProductsCRUD.get_product (db : DBState) (product_id : Option Nat)
    (web_code : Option String) : Option Products × Bool :=
  if !(validate_input_product_id_web_code product_id web_code) then
    (none, false)
  else if truthyNat product_id then
    (findFirstP (fun p => p.product_id == product_id.getD 0) db.products, true)
  else
    match web_code with
    | some w => (findFirstP (fun p => p.web_code == w) db.products, true)
    | none => (none, true)

/-- `MongoDBClient.insert_data` as used through `_store_in_mongo`:
appends one document to the collection. -/
def MongoDBClient.insert_data (db : DBState) (doc : MongoDoc) : DBState :=
  { db with mongo := db.mongo ++ [doc] }

/-- `DatabaseHandler._store_in_mongo`: builds the history document from
the product details and the current datetime and inserts it.  With the
processed record shape, every required key is present, so the `KeyError`
re-raise branch is unreachable. -/
def DatabaseHandler.store_in_mongo (db : DBState) (now : PyDateTime)
    (pd : ProductDetails) : DBState :=
  MongoDBClient.insert_data db
    { web_code := pd.web_code, price := pd.price, save := pd.save, date := now }

/-- `DatabaseHandler.store_new_product`: inserts the row, then reads
`response["product_id"]`.  When the insert failed the response is `None`
and the subscript raises `TypeError` (not caught by the `except KeyError`
handler); otherwise the Mongo history insert follows and the call
returns `(product_id, (None, 200))`. -/
def DatabaseHandler.store_new_product (db : DBState) (now : PyDateTime)
    (pd : ProductDetails) :
    Except PyErr (DBState × Nat × Option String × Nat) :=
  match ProductsCRUD.insert_product db now pd.web_code pd.title pd.model
      pd.url pd.price pd.save with
  | (_, none) =>
    .error (PyErr.mk "TypeError: 'NoneType' object is not subscriptable" none)
  | (db1, some pid) =>
    .ok (DatabaseHandler.store_in_mongo db1 now pd, pid, none, 200)

/-- `DatabaseHandler.update_existing_product`: reads
`product_details["product_id"]` (a missing key raises `KeyError`, which
the handler re-raises), issues the relational update — ignoring its
boolean success flag — and then unconditionally performs the Mongo
history insert. -/
def DatabaseHandler.update_existing_product (db : DBState)
    (now : PyDateTime) (pd : ProductDetails) : Except PyErr DBState :=
  match pd.product_id with
  | none => .error (PyErr.mk "KeyError: 'product_id'" none)
  | some pid =>
    let r := ProductsCRUD.update_product db now pid
      { price := pd.price, save := pd.save }
    .ok (DatabaseHandler.store_in_mongo r.1 now pd)

/-- `DatabaseHandler.get_product`: raises `ValueError` on invalid
identifier combinations, otherwise delegates to the CRUD query. -/
def DatabaseHandler.get_product (db : DBState) (product_id : Option Nat)
    (web_code : Option String) :
    Except PyErr (Option Products × Bool) :=
  if !(validate_input_product_id_web_code product_id web_code) then
    .error (PyErr.mk
      "Provide either 'product_id' or 'web_code', but not both." none)
  else
    .ok (ProductsCRUD.get_product db product_id web_code)

/-- `ProductService.get_product`: validates first (returning `None`
without touching the database on failure), then queries through the
handler, catching any exception into `None`.  The `Bool` reports whether
the database was queried. -/
def ProductService.get_product (db : DBState) (product_id : Option Nat)
    (web_code : Option String) : Option Products × Bool :=
  if !(validate_input_product_id_web_code product_id web_code) then
    (none, false)
  else
    match DatabaseHandler.get_product db product_id web_code with
    | .ok r => r
    | .error _ => (none, false)

/-- `ProductService.store_product`: calls `store_new_product` inside a
catch-all; a truthy product id yields the created message with 201, a
falsy one forwards the inner message, and any exception becomes
`(None, ("Internal server error", 500))`. -/
def ProductService.store_product (db : DBState) (now : PyDateTime)
    (pd : ProductDetails) : DBState × Option Nat × Option String × Nat :=
  match DatabaseHandler.store_new_product db now pd with
  | .ok (db1, pid, msg, code) =>
    if pid != 0 then
      (db1, some pid, some "Product data added to PostgreSQL and MongoDB.", 201)
    else
      (db1, none, msg, code)
  | .error _ => (db, none, some "Internal server error", 500)

/-- `ProductService.handle_existing_product`: the three-way decision for
an existing row.  Current and stored timestamps are compared by calendar
date only; the candidate details get the stored `product_id` before any
update. -/
def ProductService.handle_existing_product (db : DBState)
    (now : PyDateTime) (existing : Products) (pd : ProductDetails) :
    Except PyErr (DBState × String × Nat) :=
  let current_date := now.date
  let stored_date := existing.updated_at.date
  let pd1 := { pd with product_id := some existing.product_id }
  if existing.price != pd1.price then
    (DatabaseHandler.update_existing_product db now pd1).map
      (fun db1 => (db1, "Product details updated.", 200))
  else if current_date == stored_date then
    .ok (db, "Product already updated today.", 200)
  else
    (DatabaseHandler.update_existing_product db now pd1).map
      (fun db1 => (db1, "Product details updated.", 200))

/-- Outcome classification of one ingestion call, read off the
messages/identifiers the code returns at each exit of `scrape_url`'s
persistence step. -/
inductive IngestOutcome where
  | inserted
  | updated
  | noActionSameDay
  | storeFailed
deriving DecidableEq, Repr

/-- The persistence step of `celery_tasks.scrape_url` once scraping has
produced `pd`: look up the existing product by the job's web code,
then either run the existing-product decision or store a new product. -/
def ingest (db : DBState) (now : PyDateTime) (web_code : String)
    (pd : ProductDetails) : Except PyErr (DBState × IngestOutcome) :=
  match ProductService.get_product db none (some web_code) with
  | (some existing, _) =>
    (ProductService.handle_existing_product db now existing pd).map
      (fun r =>
        (r.1, if r.2.1 == "Product already updated today."
              then IngestOutcome.noActionSameDay else IngestOutcome.updated))
  | (none, _) =>
    let r := ProductService.store_product db now pd
    match r.2.1 with
    | some _ => .ok (r.1, IngestOutcome.inserted)
    | none => .ok (r.1, IngestOutcome.storeFailed)

/-- A row of the `jobs` table (`jobs_crud.Jobs`). -/
structure Jobs where
  job_id : String
  webcode : String
  status : String
  result : Option String
  product_id : Option Nat
  created_at : PyDateTime
  updated_at : PyDateTime
deriving DecidableEq, Repr

/-- The `updates` dicts the services pass to `JobsCRUD.update_job`: the
only keys ever supplied are `status` and `result`, both attributes of
`Jobs`, so the `hasattr` filter accepts them. -/
structure JobUpdates where
  status : Option String
  result : Option String
deriving DecidableEq, Repr

/-- Apply an updates dict to a job row as the `setattr` loop does, then
stamp `updated_at` with the current datetime. -/
def applyJobUpdates (j : Jobs) (u : JobUpdates) (now : PyDateTime) : Jobs :=
  let j1 := match u.status with
    | some s => { j with status := s }
    | none => j
  let j2 := match u.result with
    | some r => { j1 with result := some r }
    | none => j1
  { j2 with updated_at := now }

/-- `JobsCRUD.update_job`: fetches the first row with the given
`job_id`; if absent returns `False` with no write, otherwise applies
every requested field unconditionally — there is no check of the current
status — and commits, returning `True`. -/
def JobsCRUD.update_job (st : List Jobs) (now : PyDateTime)
    (job_id : String) (u : JobUpdates) : List Jobs × Bool :=
  match findFirstP (fun j => j.job_id == job_id) st with
  | none => (st, false)
  | some _ =>
    (replaceFirstP (fun j => j.job_id == job_id)
      (fun j => applyJobUpdates j u now) st, true)

/-- `json.dumps(result)` on the scraped details, at the level the claims
observe: some serialized string built from the dict. -/
def dumpJson (pd : ProductDetails) : String :=
  "\x7b\"web_code\": \"" ++ pd.web_code ++ "\", \"price\": "
  ++ toString pd.price ++ ", \"save\": " ++ toString pd.save ++ "\x7d"

/-- What `scrape_task` returns to the queue runtime: the scraped result
dict on success, or an `{"error": ...}` dict. -/
inductive TaskOut where
  | ok (r : ProductDetails)
  | err (msg : String)
deriving DecidableEq, Repr

/-- `celery_tasks.scrape_task`, abstracted over the outcome `exec` of
`retry_with_backoff(lambda: scrape_url(...))`: an exception, an empty
result, or scraped details.  Besides the final job store and return
value it records the sequence of status values written, in order.  The
`except` clause catches every exception, so the function is total. -/
def scrape_task (st : List Jobs) (now : PyDateTime) (job_id : String)
    (exec : Except PyErr (Option ProductDetails)) :
    List Jobs × TaskOut × List String :=
  let r1 := JobsCRUD.update_job st now job_id
    { status := some "In Progress", result := none }
  match exec with
  | .error e =>
    let r2 := JobsCRUD.update_job r1.1 now job_id
      { status := some "Failed", result := none }
    (r2.1, TaskOut.err e.msg, ["In Progress", "Failed"])
  | .ok none =>
    let r2 := JobsCRUD.update_job r1.1 now job_id
      { status := some "Failed", result := none }
    (r2.1, TaskOut.err "Failed to scrape the product.", ["In Progress", "Failed"])
  | .ok (some r) =>
    let r2 := JobsCRUD.update_job r1.1 now job_id
      { status := some "Completed", result := some (dumpJson r) }
    (r2.1, TaskOut.ok r, ["In Progress", "Completed"])

/-- Result of a `retry_with_backoff` run: the returned value or raised
exception, the number of times the operation was invoked, and the
sequence of sleep durations, in order. -/
structure RetryResult (R : Type) where
  outcome : Except PyErr (Option R)
  calls : Nat
  sleeps : List Nat

/-- The `for attempt in range(1, retries + 1)` loop of
`retry_with_backoff`, with `k` the number of attempts remaining (so the
`attempt < retries` guard before sleeping is `k > 0` after the current
attempt).  The operation is indexed by the attempt number; each raised
exception replaces `last`, and after the loop the accumulated failure is
re-raised wrapped (`raise Exception(...) from last_exception`) — or
`None` is returned when no exception was ever raised. -/
def retryAux {R : Type} (op : Nat → Except PyErr (Option R))
    (retries : Nat) (retry_on_none : Bool) (backoff_factor : Nat) :
    Nat → Nat → Nat → Option PyErr → Nat → List Nat → RetryResult R
  | 0, _, _, last, calls, sleeps =>
    match last with
    | some e =>
      { outcome := .error (PyErr.mk
          ("All " ++ toString retries ++ " retries failed. Last error: "
            ++ e.msg) (some e)),
        calls := calls, sleeps := sleeps }
    | none => { outcome := .ok none, calls := calls, sleeps := sleeps }
  | k + 1, attempt, delay, last, calls, sleeps =>
    match op attempt with
    | .ok r =>
      if !retry_on_none && r.isNone then
        { outcome := .ok none, calls := calls + 1, sleeps := sleeps }
      else if r.isSome then
        { outcome := .ok r, calls := calls + 1, sleeps := sleeps }
      else if k > 0 then
        retryAux op retries retry_on_none backoff_factor k (attempt + 1)
          (delay * backoff_factor) last (calls + 1) (sleeps ++ [delay])
      else
        retryAux op retries retry_on_none backoff_factor k (attempt + 1)
          delay last (calls + 1) sleeps
    | .error e =>
      if k > 0 then
        retryAux op retries retry_on_none backoff_factor k (attempt + 1)
          (delay * backoff_factor) (some e) (calls + 1) (sleeps ++ [delay])
      else
        retryAux op retries retry_on_none backoff_factor k (attempt + 1)
          delay (some e) (calls + 1) sleeps

/-- `retry_with_backoff(func, retries, initial_delay, backoff_factor,
retry_on_none)`, instrumented with the invocation count and sleep
trace. -/
def retry_with_backoff {R : Type} (op : Nat → Except PyErr (Option R))
    (retries initial_delay backoff_factor : Nat) (retry_on_none : Bool) :
    RetryResult R :=
  retryAux op retries retry_on_none backoff_factor retries 1
    initial_delay none 0 []

/-- The raw scraped dict handed to `process_product_data`: every key may
be absent. -/
structure RawRecord where
  title : Option String
  model : Option String
  web_code : Option String
  price : Option String
  url : Option String
  save : Option String
  date : Option String
deriving DecidableEq, Repr

/-- An exact model of a Python float amount: an unnormalized fraction
`num / den` with positive denominator.  The dollar amounts the cleaner
produces are decimal fractions, which this represents exactly (binary
float rounding is below the granularity any claim observes). -/
structure PyFloat where
  num : Int
  den : Nat
deriving DecidableEq, Repr

/-- The fraction `n / 1`. -/
def PyFloat.ofNat (n : Nat) : PyFloat :=
  { num := (n : Int), den := 1 }

/-- Output of `DataCleaner.clean_product_data` for one item: every key
present, amounts as (exact models of) floats. -/
structure CleanedRecord where
  title : String
  model : String
  web_code : String
  price : PyFloat
  url : String
  save : PyFloat
  date : Option String
deriving DecidableEq, Repr

/-- Whitespace for Python `str.strip()`. -/
def isPySpace (c : Char) : Bool :=
  c == ' ' || c == '\t' || c == '\n' || c == '\r'

/-- Python `str.strip()`. -/
def pyStrip (s : String) : String :=
  String.mk (((s.data.dropWhile isPySpace).reverse.dropWhile isPySpace).reverse)

/-- Python `pat in hay` for strings: substring containment. -/
def listContainsSub (hay pat : List Char) : Bool :=
  match hay with
  | [] => pat.isEmpty
  | _ :: t => pat.isPrefixOf hay || listContainsSub t pat

/-- Python `str.replace(pat, rep)`: replace non-overlapping occurrences
left to right.  The fuel argument (instantiated with the haystack
length, which bounds the number of steps) keeps the recursion
structural. -/
def listReplaceAux (pat rep : List Char) : Nat → List Char → List Char
  | _, [] => []
  | 0, l => l
  | fuel + 1, c :: t =>
    if !pat.isEmpty && pat.isPrefixOf (c :: t) then
      rep ++ listReplaceAux pat rep fuel (t.drop (pat.length - 1))
    else
      c :: listReplaceAux pat rep fuel t

/-- `DataCleaner.clean_text`: strip a marker substring if present, then
strip whitespace. -/
def DataCleaner.clean_text (text pre : String) : String :=
  if listContainsSub text.data pre.data then
    pyStrip (String.mk (listReplaceAux pre.data [] text.data.length text.data))
  else
    pyStrip text

/-- Numeric value of a digit run. -/
def digitsVal (l : List Char) : Nat :=
  l.foldl (fun a c => a * 10 + (c.toNat - 48)) 0

/-- Split a character list on `'.'` (every occurrence). -/
def splitOnDot : List Char → List (List Char)
  | [] => [[]]
  | c :: t =>
    if c == '.' then [] :: splitOnDot t
    else
      match splitOnDot t with
      | [] => [[c]]
      | h :: r => (c :: h) :: r

/-- Python `float(s)` on a string of digits and dots, modelled exactly:
a single optional dot with at least one digit parses to the decimal
fraction it denotes; anything else (only a dot, several dots) raises
`ValueError`, reported as `none`. -/
def parsePyFloat (l : List Char) : Option PyFloat :=
  match splitOnDot l with
  | [ip] =>
    if ip.isEmpty || !ip.all Char.isDigit then none
    else some (PyFloat.ofNat (digitsVal ip))
  | [ip, fp] =>
    if (ip.isEmpty && fp.isEmpty) || !ip.all Char.isDigit
        || !fp.all Char.isDigit then none
    else some { num := ((digitsVal ip * 10 ^ fp.length + digitsVal fp : Nat) : Int),
                den := 10 ^ fp.length }
  | _ => none

/-- `DataCleaner.clean_and_convert_amount`: drop every character that is
not a digit or a dot, replace an empty remainder by `"0"`, convert to
float — returning `0.0` when the conversion raises `ValueError`. -/
def DataCleaner.clean_and_convert_amount (amount_str : String) : PyFloat :=
  let cleaned := amount_str.data.filter (fun c => c.isDigit || c == '.')
  let cleaned := if cleaned.isEmpty then ['0'] else cleaned
  match parsePyFloat cleaned with
  | some q => q
  | none => PyFloat.ofNat 0

/-- `DataCleaner.clean_product_data` on one item: every missing key is
replaced by the empty-string default of `item.get(key, "")` before
cleaning, so a missing amount cleans to `0`. -/
def DataCleaner.clean_product_item (item : RawRecord) : CleanedRecord :=
  { title := pyStrip (item.title.getD ""),
    model := DataCleaner.clean_text (item.model.getD "") "Model:",
    web_code := DataCleaner.clean_text (item.web_code.getD "") "Web Code:",
    price := DataCleaner.clean_and_convert_amount (pyStrip (item.price.getD "")),
    url := pyStrip (item.url.getD ""),
    save := DataCleaner.clean_and_convert_amount (pyStrip (item.save.getD "")),
    date := item.date }

/-- `DataCleaner.clean_product_data`: clean a list of raw items. -/
def DataCleaner.clean_product_data (data : List RawRecord) : List CleanedRecord :=
  data.map DataCleaner.clean_product_item

/-- Python `int(...)` on a number: truncation toward zero. -/
def pyInt (q : PyFloat) : Int :=
  if 0 ≤ q.num then ((q.num.toNat / q.den : Nat) : Int)
  else -(((-q.num).toNat / q.den : Nat) : Int)

/-- `ProductProcessor._convert_to_cents` on the float the cleaner
produced: `int(float(amount) * 100)`.  The `None` and `ValueError`
branches require a non-numeric amount, which the cleaner never emits. -/
def ProductProcessor.convert_to_cents (amount : PyFloat) : Int :=
  pyInt { num := amount.num * 100, den := amount.den }

/-- `ProductProcessor.process_product_data`: clean the raw record
(`clean_product_data([raw_data])[0]`), then replace the `price` and
`save` amounts by their cent values.  For cleaner output the conversion
cannot raise, so the `ValueError` re-raise branch is unreachable and the
embedding is total. -/
def ProductProcessor.process_product_data (raw : RawRecord) : ProductDetails :=
  let cleaned := DataCleaner.clean_product_item raw
  { title := cleaned.title, model := cleaned.model,
    web_code := cleaned.web_code, url := cleaned.url,
    price := ProductProcessor.convert_to_cents cleaned.price,
    save := ProductProcessor.convert_to_cents cleaned.save,
    product_id := none }

/-! ## List lemmas about first-match queries and in-place updates -/

theorem findFirstP_mem {α : Type} (p : α → Bool) (l : List α) (a : α)
    (h : findFirstP p l = some a) : a ∈ l := by
  induction l with
  | nil => simp [findFirstP] at h
  | cons x t ih =>
    by_cases hx : p x
    · simp [findFirstP, hx] at h
      simp [h]
    · simp [findFirstP, hx] at h
      exact List.mem_cons_of_mem x (ih h)

theorem findFirstP_prop {α : Type} (p : α → Bool) (l : List α) (a : α)
    (h : findFirstP p l = some a) : p a = true := by
  induction l with
  | nil => simp [findFirstP] at h
  | cons x t ih =>
    by_cases hx : p x
    · simp [findFirstP, hx] at h
      subst h
      exact hx
    · simp [findFirstP, hx] at h
      exact ih h

theorem findFirstP_append_single {α : Type} (p : α → Bool) (l : List α)
    (x : α) (h : findFirstP p l = none) :
    findFirstP p (l ++ [x]) = if p x then some x else none := by
  induction l with
  | nil => simp [findFirstP]
  | cons y t ih =>
    by_cases hy : p y
    · simp [findFirstP, hy] at h
    · simp [findFirstP, hy] at h ⊢
      exact ih h

theorem findFirstP_replaceFirstP_same {α : Type} (p : α → Bool)
    (f : α → α) (l : List α) (a : α) (h : findFirstP p l = some a)
    (hf : p (f a) = true) :
    findFirstP p (replaceFirstP p f l) = some (f a) := by
  induction l with
  | nil => simp [findFirstP] at h
  | cons x t ih =>
    by_cases hx : p x
    · simp [findFirstP, hx] at h
      subst h
      simp [replaceFirstP, findFirstP, hx, hf]
    · simp [findFirstP, hx] at h
      simp [replaceFirstP, findFirstP, hx]
      exact ih h

theorem findFirstP_replaceFirstP_of_none {α : Type} (q : α → Bool)
    (f : α → α) (l : List α) (h : findFirstP q l = none) :
    replaceFirstP q f l = l := by
  induction l with
  | nil => rfl
  | cons x t ih =>
    by_cases hx : q x
    · simp [findFirstP, hx] at h
    · simp [findFirstP, hx] at h
      simp [replaceFirstP, hx, ih h]

/-- Updating the unique row carrying the web-code match's primary key
leaves that row as the first web-code match: distinct primary keys keep
the in-place update from touching an earlier row. -/
theorem findWc_after_pidReplace (l : List Products)
    (hU : l.Pairwise (fun a b => a.product_id ≠ b.product_id))
    (wc : String) (ex : Products) (f : Products → Products)
    (h : findFirstP (fun p => p.web_code == wc) l = some ex)
    (hfwc : (f ex).web_code = ex.web_code) :
    findFirstP (fun p => p.web_code == wc)
      (replaceFirstP (fun p => p.product_id == ex.product_id) f l)
      = some (f ex) := by
  induction l with
  | nil => simp [findFirstP] at h
  | cons x t ih =>
    by_cases hx : x.web_code == wc
    · simp [findFirstP, hx] at h
      subst h
      simp [replaceFirstP, findFirstP, hfwc, hx]
    · simp only [findFirstP, hx, if_neg, Bool.false_eq_true, if_false] at h
      have hmem : ex ∈ t := findFirstP_mem _ _ _ h
      have hpid : x.product_id ≠ ex.product_id :=
        (List.pairwise_cons.mp hU).1 ex hmem
      have hstep : (x.product_id == ex.product_id) = false := by
        simp [hpid]
      simp [replaceFirstP, hstep, findFirstP, hx]
      exact ih (List.pairwise_cons.mp hU).2 h

/-! ## Claim theorems -/

/-- C1: for an ingestion whose natural key matches a stored record, the
decider checks, in order: differing stored price — update the record and
report the updated outcome; equal price and equal calendar date — no
write and the same-day no-action outcome; equal price and differing
calendar date — update (timestamp refresh) and report the updated
outcome. -/
theorem claim_C1_existing_three_way (db : DBState) (now : PyDateTime)
    (ex : Products) (nd : ProductDetails)
    (hex : findFirstP (fun p => p.product_id == ex.product_id) db.products
      = some ex) :
    (ex.price ≠ nd.price →
      ∃ db1, ProductService.handle_existing_product db now ex nd
          = .ok (db1, "Product details updated.", 200)
        ∧ findFirstP (fun p => p.product_id == ex.product_id) db1.products
            = some { ex with price := nd.price, save := nd.save,
                             updated_at := now }
        ∧ db1.mongo = db.mongo ++
            [{ web_code := nd.web_code, price := nd.price, save := nd.save,
               date := now }])
    ∧ (ex.price = nd.price → now.date = ex.updated_at.date →
      ProductService.handle_existing_product db now ex nd
        = .ok (db, "Product already updated today.", 200))
    ∧ (ex.price = nd.price → now.date ≠ ex.updated_at.date →
      ∃ db1, ProductService.handle_existing_product db now ex nd
          = .ok (db1, "Product details updated.", 200)
        ∧ findFirstP (fun p => p.product_id == ex.product_id) db1.products
            = some { ex with price := nd.price, save := nd.save,
                             updated_at := now }
        ∧ db1.mongo = db.mongo ++
            [{ web_code := nd.web_code, price := nd.price, save := nd.save,
               date := now }]) := by
  refine ⟨?_, ?_, ?_⟩
  · intro hne
    refine ⟨{ products := replaceFirstP (fun p => p.product_id == ex.product_id)
                (fun p => { p with price := nd.price, save := nd.save,
                                   updated_at := now }) db.products,
              mongo := db.mongo ++ [{ web_code := nd.web_code,
                                      price := nd.price,
                                      save := nd.save, date := now }],
              next_id := db.next_id }, ?_, ?_, ?_⟩
    · simp [ProductService.handle_existing_product, hne,
        DatabaseHandler.update_existing_product, ProductsCRUD.update_product,
        hex, DatabaseHandler.store_in_mongo, MongoDBClient.insert_data,
        Except.map]
    · exact findFirstP_replaceFirstP_same _ _ _ _ hex (by simp)
    · rfl
  · intro heq hdate
    simp [ProductService.handle_existing_product, heq, hdate]
  · intro heq hdate
    refine ⟨{ products := replaceFirstP (fun p => p.product_id == ex.product_id)
                (fun p => { p with price := nd.price, save := nd.save,
                                   updated_at := now }) db.products,
              mongo := db.mongo ++ [{ web_code := nd.web_code,
                                      price := nd.price,
                                      save := nd.save, date := now }],
              next_id := db.next_id }, ?_, ?_, ?_⟩
    · simp [ProductService.handle_existing_product, heq, hdate,
        DatabaseHandler.update_existing_product, ProductsCRUD.update_product,
        hex, DatabaseHandler.store_in_mongo, MongoDBClient.insert_data,
        Except.map]
    · exact findFirstP_replaceFirstP_same _ _ _ _ hex (by simp)
    · rfl

/-! ## Concrete fixtures for witnesses and counterexamples -/

def dEx : PyDateTime := { day := 10, tod := 0 }

def dEx2 : PyDateTime := { day := 11, tod := 5 }

def prodEx : Products :=
  { product_id := 1, web_code := "16004374", title := "iPad", model := "M1",
    url := "u", price := 59999, save := 0, created_at := dEx,
    updated_at := dEx }

def dbEx : DBState := { products := [prodEx], mongo := [], next_id := 2 }

def dbEmptyEx : DBState := { products := [], mongo := [], next_id := 1 }

def ndEx : ProductDetails :=
  { title := "iPad", model := "M1", web_code := "16004374", url := "u",
    price := 54999, save := 5000, product_id := none }

def jobTermEx : Jobs :=
  { job_id := "j1", webcode := "16004374", status := "Completed",
    result := none, product_id := none, created_at := dEx, updated_at := dEx }

def jobPendEx : Jobs :=
  { job_id := "j2", webcode := "16004374", status := "Pending",
    result := none, product_id := none, created_at := dEx, updated_at := dEx }

/-- C1 witness: the price-differs branch evaluated at a concrete store. -/
theorem claim_C1_witness :
    ∃ db1, ProductService.handle_existing_product dbEx dEx2 prodEx ndEx
        = .ok (db1, "Product details updated.", 200)
      ∧ findFirstP (fun p => p.product_id == prodEx.product_id) db1.products
          = some { prodEx with price := ndEx.price, save := ndEx.save,
                               updated_at := dEx2 }
      ∧ db1.mongo = dbEx.mongo ++
          [{ web_code := ndEx.web_code, price := ndEx.price,
             save := ndEx.save, date := dEx2 }] :=
  (claim_C1_existing_three_way dbEx dEx2 prodEx ndEx (by decide)).1 (by decide)

/-! ## Job-store helper lemmas -/

theorem applyJobUpdates_job_id (j : Jobs) (u : JobUpdates) (now : PyDateTime) :
    (applyJobUpdates j u now).job_id = j.job_id := by
  rcases u with ⟨us, ur⟩
  cases us <;> cases ur <;> simp [applyJobUpdates]

theorem applyJobUpdates_status (j : Jobs) (s : String) (r : Option String)
    (now : PyDateTime) :
    (applyJobUpdates j { status := some s, result := r } now).status = s := by
  cases r <;> simp [applyJobUpdates]

theorem applyJobUpdates_result_none (j : Jobs) (s : Option String)
    (now : PyDateTime) :
    (applyJobUpdates j { status := s, result := none } now).result
      = j.result := by
  cases s <;> simp [applyJobUpdates]

/-- An update on an existing job commits (flag `True`) and leaves the
updated row as the first match for its id. -/
theorem update_job_found (st : List Jobs) (now : PyDateTime) (jid : String)
    (u : JobUpdates) (j : Jobs)
    (h : findFirstP (fun x => x.job_id == jid) st = some j) :
    (JobsCRUD.update_job st now jid u).2 = true
    ∧ findFirstP (fun x => x.job_id == jid)
        (JobsCRUD.update_job st now jid u).1
        = some (applyJobUpdates j u now) := by
  constructor
  · simp [JobsCRUD.update_job, h]
  · simp only [JobsCRUD.update_job, h]
    refine findFirstP_replaceFirstP_same _ _ _ _ h ?_
    have hp := findFirstP_prop _ _ _ h
    simpa [applyJobUpdates_job_id] using hp

/-- C3 counterexample: a job whose status is the terminal `"Completed"`
is moved back to `"Pending"` by a further `update_job` call — the store
enforces no terminal-state guard. -/
theorem claim_C3_counterexample :
    jobTermEx.status = "Completed"
    ∧ (JobsCRUD.update_job [jobTermEx] dEx2 "j1"
        { status := some "Pending", result := none }).2 = true
    ∧ (findFirstP (fun j => j.job_id == "j1")
        (JobsCRUD.update_job [jobTermEx] dEx2 "j1"
          { status := some "Pending", result := none }).1).map Jobs.status
        = some "Pending" := by
  decide

/-- C3 amended: the happy-path worker writes statuses in the order
`In Progress` then exactly one terminal status, but the job store itself
enforces no monotonicity — `update_job` applies any requested status to
an existing job regardless of its current (possibly terminal) status. -/
theorem claim_C3_amended_no_terminal_guard :
    (∀ (st : List Jobs) (now : PyDateTime) (jid s : String) (j : Jobs),
      findFirstP (fun x => x.job_id == jid) st = some j →
        (JobsCRUD.update_job st now jid
            { status := some s, result := none }).2 = true
        ∧ (findFirstP (fun x => x.job_id == jid)
            (JobsCRUD.update_job st now jid
              { status := some s, result := none }).1).map Jobs.status
            = some s)
    ∧ (∀ (st : List Jobs) (now : PyDateTime) (jid : String)
        (exec : Except PyErr (Option ProductDetails)),
      (scrape_task st now jid exec).2.2 = ["In Progress", "Failed"]
      ∨ (scrape_task st now jid exec).2.2 = ["In Progress", "Completed"]) := by
  constructor
  · intro st now jid s j h
    obtain ⟨hflag, hfind⟩ := update_job_found st now jid
      { status := some s, result := none } j h
    refine ⟨hflag, ?_⟩
    rw [hfind]
    simp [applyJobUpdates_status]
  · intro st now jid exec
    rcases exec with e | r
    · simp [scrape_task]
    · rcases r with _ | r <;> simp [scrape_task]

/-- C3 amended witness: applying a status update to a terminal job. -/
theorem claim_C3_amended_witness :
    (JobsCRUD.update_job [jobTermEx] dEx2 "j1"
        { status := some "In Progress", result := none }).2 = true
    ∧ (findFirstP (fun x => x.job_id == "j1")
        (JobsCRUD.update_job [jobTermEx] dEx2 "j1"
          { status := some "In Progress", result := none }).1).map Jobs.status
        = some "In Progress" :=
  claim_C3_amended_no_terminal_guard.1 [jobTermEx] dEx2 "j1" "In Progress"
    jobTermEx (by decide)

/-- C4: at the failing input (an update for a `product_id` with no row,
so the relational write fails with flag `False`), the code still appends
the Mongo history entry and returns without error — the partial write
the spec forbids. -/
theorem claim_C4_partial_write_at_failing_input :
    (ProductsCRUD.update_product dbEmptyEx dEx 1
        { price := ndEx.price, save := ndEx.save }).2 = false
    ∧ DatabaseHandler.update_existing_product dbEmptyEx dEx
        { ndEx with product_id := some 1 }
        = .ok { products := [],
                mongo := [{ web_code := ndEx.web_code, price := ndEx.price,
                            save := ndEx.save, date := dEx }],
                next_id := 1 } :=
  ⟨rfl, rfl⟩

/-- C8 counterexample: on a fault the worker marks the job Failed but
does not store the error payload on the job — the `result` column keeps
its prior value (`None`) and the payload appears only in the task's
return value. -/
theorem claim_C8_counterexample :
    ((findFirstP (fun j => j.job_id == "j2")
        (scrape_task [jobPendEx] dEx2 "j2"
          (.error (PyErr.mk "boom" none))).1).map Jobs.status
      = some "Failed")
    ∧ ((findFirstP (fun j => j.job_id == "j2")
        (scrape_task [jobPendEx] dEx2 "j2"
          (.error (PyErr.mk "boom" none))).1).map Jobs.result
      = some none)
    ∧ (scrape_task [jobPendEx] dEx2 "j2"
        (.error (PyErr.mk "boom" none))).2.1 = TaskOut.err "boom" :=
  ⟨rfl, rfl, rfl⟩

/-- C8 amended: every fault from the Execute step is caught at the
worker boundary and converted into a terminal Failed status, never
re-raised; the captured error payload is returned as the task's
`\x7b"error": str(e)\x7d` value but is not written to the job row, whose
`result` field keeps its previous value. -/
theorem claim_C8_amended_fault_to_failed (st : List Jobs)
    (now : PyDateTime) (jid : String) (e : PyErr) (j : Jobs)
    (hj : findFirstP (fun x => x.job_id == jid) st = some j) :
    (scrape_task st now jid (.error e)).2.1 = TaskOut.err e.msg
    ∧ (findFirstP (fun x => x.job_id == jid)
        (scrape_task st now jid (.error e)).1).map Jobs.status
        = some "Failed"
    ∧ (findFirstP (fun x => x.job_id == jid)
        (scrape_task st now jid (.error e)).1).map Jobs.result
        = some j.result := by
  have h1 := update_job_found st now jid
    { status := some "In Progress", result := none } j hj
  have h2 := update_job_found (JobsCRUD.update_job st now jid
      { status := some "In Progress", result := none }).1 now jid
    { status := some "Failed", result := none } _ h1.2
  refine ⟨rfl, ?_, ?_⟩
  · show (findFirstP (fun x => x.job_id == jid)
      (JobsCRUD.update_job (JobsCRUD.update_job st now jid
        { status := some "In Progress", result := none }).1 now jid
        { status := some "Failed", result := none }).1).map Jobs.status
      = some "Failed"
    rw [h2.2]
    simp [applyJobUpdates_status]
  · show (findFirstP (fun x => x.job_id == jid)
      (JobsCRUD.update_job (JobsCRUD.update_job st now jid
        { status := some "In Progress", result := none }).1 now jid
        { status := some "Failed", result := none }).1).map Jobs.result
      = some j.result
    rw [h2.2]
    simp [applyJobUpdates_result_none]

/-- C8 amended witness. -/
theorem claim_C8_amended_witness :
    (scrape_task [jobPendEx] dEx2 "j2"
        (.error (PyErr.mk "socket timeout" none))).2.1
      = TaskOut.err (PyErr.mk "socket timeout" none).msg
    ∧ (findFirstP (fun x => x.job_id == "j2")
        (scrape_task [jobPendEx] dEx2 "j2"
          (.error (PyErr.mk "socket timeout" none))).1).map Jobs.status
        = some "Failed"
    ∧ (findFirstP (fun x => x.job_id == "j2")
        (scrape_task [jobPendEx] dEx2 "j2"
          (.error (PyErr.mk "socket timeout" none))).1).map Jobs.result
        = some jobPendEx.result :=
  claim_C8_amended_fault_to_failed [jobPendEx] dEx2 "j2"
    (PyErr.mk "socket timeout" none) jobPendEx (by decide)

/-- C10 counterexample: with `product_id=0` and a web code both passed,
both identifiers are provided, yet the lookup proceeds (0 is falsy, so
the truthiness exclusive-or passes) — the database is queried and the
product is returned instead of `None`. -/
theorem claim_C10_counterexample :
    (ProductService.get_product dbEx (some 0) (some "16004374")).2 = true
    ∧ (ProductService.get_product dbEx (some 0) (some "16004374")).1
        = some prodEx := by
  decide

/-- C10 amended: the exclusive-or check is on Python truthiness, under
which `None`, `0` and the empty string all count as absent.  When the
two identifiers are both truthy or both falsy, `get_product` returns
`None` without raising and without querying; a lookup is attempted
exactly when one of the two is truthy. -/
theorem claim_C10_amended_truthy_xor (db : DBState) (pid : Option Nat)
    (wc : Option String) :
    (truthyNat pid = truthyStr wc →
      ProductService.get_product db pid wc = (none, false))
    ∧ (truthyNat pid ≠ truthyStr wc →
      (ProductService.get_product db pid wc).2 = true) := by
  constructor
  · intro h
    simp [ProductService.get_product, validate_input_product_id_web_code, h]
  · intro h
    have hv : validate_input_product_id_web_code pid wc = true := by
      simp [validate_input_product_id_web_code]
      exact h
    simp only [ProductService.get_product, DatabaseHandler.get_product,
      ProductsCRUD.get_product, hv, Bool.not_true]
    by_cases ht : truthyNat pid
    · simp [ht]
    · cases wc with
      | none => simp [ht]
      | some w => simp [ht]

/-- C10 amended witness: both identifiers truthy. -/
theorem claim_C10_amended_witness :
    ProductService.get_product dbEx (some 3) (some "16004374")
      = (none, false) :=
  (claim_C10_amended_truthy_xor dbEx (some 3) (some "16004374")).1 (by decide)

/-- A failing attempt in the sense of the retry loop: it either raises
or returns an empty result. -/
def attemptFails {R : Type} (x : Except PyErr (Option R)) : Prop :=
  x = .ok none ∨ ∃ e, x = .error e

/-- Three failing attempts with the default configuration: exactly three
invocations, and the final outcome is itself a failure (an empty result
or a raised wrapper fault). -/
theorem retry3_all_fail {R : Type} (op : Nat → Except PyErr (Option R))
    (h1 : attemptFails (op 1)) (h2 : attemptFails (op 2))
    (h3 : attemptFails (op 3)) :
    (retry_with_backoff op 3 5 2 true).calls = 3
    ∧ ((retry_with_backoff op 3 5 2 true).outcome = .ok none
       ∨ ∃ e, (retry_with_backoff op 3 5 2 true).outcome = .error e) := by
  rcases h1 with h1 | ⟨e1, h1⟩ <;> rcases h2 with h2 | ⟨e2, h2⟩ <;>
    rcases h3 with h3 | ⟨e3, h3⟩ <;>
    simp [retry_with_backoff, retryAux, h1, h2, h3]

/-- A worker run whose Execute outcome is a failure (empty or raised)
marks the existing job `Failed`. -/
theorem scrape_task_failure_marks_failed (st : List Jobs)
    (now : PyDateTime) (jid : String) (j : Jobs)
    (hj : findFirstP (fun x => x.job_id == jid) st = some j)
    (exec : Except PyErr (Option ProductDetails))
    (hex : exec = .ok none ∨ ∃ e, exec = .error e) :
    (findFirstP (fun x => x.job_id == jid)
      (scrape_task st now jid exec).1).map Jobs.status = some "Failed" := by
  have h1 := update_job_found st now jid
    { status := some "In Progress", result := none } j hj
  have h2 := update_job_found (JobsCRUD.update_job st now jid
      { status := some "In Progress", result := none }).1 now jid
    { status := some "Failed", result := none } _ h1.2
  rcases hex with hex | ⟨e, hex⟩ <;> subst hex <;>
    · show (findFirstP (fun x => x.job_id == jid)
        (JobsCRUD.update_job (JobsCRUD.update_job st now jid
          { status := some "In Progress", result := none }).1 now jid
          { status := some "Failed", result := none }).1).map Jobs.status
        = some "Failed"
      rw [h2.2]
      simp [applyJobUpdates_status]

/-- C5: with `retries=3` (the worker's default call), an operation that
fails on every attempt — by raising or by returning an empty result with
`retry_on_none` set — is invoked exactly 3 times (the invocation counter
is 3 no matter how `op` behaves past attempt 3), and the worker then
marks the job `Failed`. -/
theorem claim_C5_three_attempts_then_failed (st : List Jobs)
    (now : PyDateTime) (jid : String) (j : Jobs)
    (op : Nat → Except PyErr (Option ProductDetails))
    (hj : findFirstP (fun x => x.job_id == jid) st = some j)
    (h1 : attemptFails (op 1)) (h2 : attemptFails (op 2))
    (h3 : attemptFails (op 3)) :
    (retry_with_backoff op 3 5 2 true).calls = 3
    ∧ (findFirstP (fun x => x.job_id == jid)
        (scrape_task st now jid
          (retry_with_backoff op 3 5 2 true).outcome).1).map Jobs.status
        = some "Failed" := by
  obtain ⟨hcalls, hout⟩ := retry3_all_fail op h1 h2 h3
  exact ⟨hcalls, scrape_task_failure_marks_failed st now jid j hj _ hout⟩

/-- C5 witness: a permanently raising operation against a pending job. -/
theorem claim_C5_witness :
    (retry_with_backoff
        (fun _ => (.error (PyErr.mk "boom" none) :
          Except PyErr (Option ProductDetails))) 3 5 2 true).calls = 3
    ∧ (findFirstP (fun x => x.job_id == "j2")
        (scrape_task [jobPendEx] dEx2 "j2"
          (retry_with_backoff
            (fun _ => (.error (PyErr.mk "boom" none) :
              Except PyErr (Option ProductDetails))) 3 5 2 true).outcome).1).map
        Jobs.status = some "Failed" :=
  claim_C5_three_attempts_then_failed [jobPendEx] dEx2 "j2" jobPendEx
    (fun _ => .error (PyErr.mk "boom" none)) (by decide)
    (Or.inr ⟨_, rfl⟩) (Or.inr ⟨_, rfl⟩) (Or.inr ⟨_, rfl⟩)

/-- When every remaining attempt raises, the loop ends by raising the
wrapper exception whose cause is the fault of the final attempt. -/
theorem retryAux_all_raise {R : Type} (op : Nat → Except PyErr (Option R))
    (retries : Nat) (ron : Bool) (factor : Nat) (e : Nat → PyErr) :
    ∀ (k attempt delay : Nat) (last : Option PyErr) (calls : Nat)
      (sleeps : List Nat), 1 ≤ k →
      (∀ n, attempt ≤ n → n < attempt + k → op n = .error (e n)) →
      (retryAux op retries ron factor k attempt delay last calls
          sleeps).outcome
        = .error (PyErr.mk
            ("All " ++ toString retries ++ " retries failed. Last error: "
              ++ (e (attempt + k - 1)).msg)
            (some (e (attempt + k - 1)))) := by
  intro k
  induction k with
  | zero => intro attempt delay last calls sleeps hk; omega
  | succ m ih =>
    intro attempt delay last calls sleeps _ hall
    have hop : op attempt = .error (e attempt) :=
      hall attempt (Nat.le_refl _) (by omega)
    cases m with
    | zero =>
      simp [retryAux, hop]
    | succ m' =>
      have hstep : (retryAux op retries ron factor (m' + 1 + 1) attempt delay
          last calls sleeps).outcome
          = (retryAux op retries ron factor (m' + 1) (attempt + 1)
              (delay * factor) (some (e attempt)) (calls + 1)
              (sleeps ++ [delay])).outcome := by
        simp [retryAux, hop]
      rw [hstep]
      have hrec := ih (attempt + 1) (delay * factor) (some (e attempt))
        (calls + 1) (sleeps ++ [delay]) (by omega)
        (fun n hn1 hn2 => hall n (by omega) (by omega))
      rw [hrec]
      have hidx : attempt + 1 + (m' + 1) - 1 = attempt + (m' + 1 + 1) - 1 := by
        omega
      rw [hidx]

/-- C6: after `retries` attempts that all raise, the executor raises the
wrapper exception `raise Exception("All ... retries failed. Last error:
...") from last_exception`, whose cause is the fault of the last attempt;
and when the first failure is an empty result with `retry_on_none` false,
the empty result is returned immediately without raising. -/
theorem claim_C6_exhaustion_reraise {R : Type}
    (op : Nat → Except PyErr (Option R)) (e : Nat → PyErr)
    (retries initial_delay backoff_factor : Nat) :
    (1 ≤ retries →
      (∀ n, 1 ≤ n → n ≤ retries → op n = .error (e n)) →
      (retry_with_backoff op retries initial_delay backoff_factor
          true).outcome
        = .error (PyErr.mk
            ("All " ++ toString retries ++ " retries failed. Last error: "
              ++ (e retries).msg)
            (some (e retries))))
    ∧ (1 ≤ retries → op 1 = .ok none →
      (retry_with_backoff op retries initial_delay backoff_factor
          false).outcome = .ok none) := by
  constructor
  · intro hret hall
    have h := retryAux_all_raise op retries true backoff_factor e retries 1
      initial_delay none 0 [] hret
      (fun n hn1 hn2 => hall n hn1 (by omega))
    have hidx : 1 + retries - 1 = retries := by omega
    rw [hidx] at h
    exact h
  · intro hret hop
    obtain ⟨m, rfl⟩ : ∃ m, retries = m + 1 :=
      ⟨retries - 1, by omega⟩
    simp [retry_with_backoff, retryAux, hop]

/-- C6 witness: three raising attempts, then the no-retry-on-empty
configuration. -/
theorem claim_C6_witness :
    (retry_with_backoff
          (fun n => (.error (PyErr.mk ("e" ++ toString n) none) :
            Except PyErr (Option Unit))) 3 5 2 true).outcome
        = .error (PyErr.mk
            ("All " ++ toString 3 ++ " retries failed. Last error: "
              ++ (PyErr.mk ("e" ++ toString 3) none).msg)
            (some (PyErr.mk ("e" ++ toString 3) none)))
    ∧ (retry_with_backoff
          (fun _ => (.ok none : Except PyErr (Option Unit))) 3 5 2
          false).outcome = .ok none :=
  ⟨(claim_C6_exhaustion_reraise
      (fun n => (.error (PyErr.mk ("e" ++ toString n) none) :
        Except PyErr (Option Unit)))
      (fun n => PyErr.mk ("e" ++ toString n) none) 3 5 2).1
      (by decide) (fun n _ _ => rfl),
   (claim_C6_exhaustion_reraise
      (fun _ => (.ok none : Except PyErr (Option Unit)))
      (fun _ => PyErr.mk "" none) 3 5 2).2 (by decide) rfl⟩

/-- C7: with `initial_delay=5` and `backoff_factor=2`, three failing
attempts sleep exactly 5 then 10 seconds between attempts, and a run
that succeeds on attempt 2 sleeps exactly once, for 5 seconds. -/
theorem claim_C7_backoff_timing {R : Type}
    (op : Nat → Except PyErr (Option R)) (r : R) :
    ((attemptFails (op 1) ∧ attemptFails (op 2) ∧ attemptFails (op 3)) →
      (retry_with_backoff op 3 5 2 true).sleeps = [5, 10])
    ∧ ((attemptFails (op 1) ∧ op 2 = .ok (some r)) →
      (retry_with_backoff op 3 5 2 true).sleeps = [5]
      ∧ (retry_with_backoff op 3 5 2 true).outcome = .ok (some r)) := by
  constructor
  · rintro ⟨h1, h2, h3⟩
    rcases h1 with h1 | ⟨e1, h1⟩ <;> rcases h2 with h2 | ⟨e2, h2⟩ <;>
      rcases h3 with h3 | ⟨e3, h3⟩ <;>
      simp [retry_with_backoff, retryAux, h1, h2, h3]
  · rintro ⟨h1, h2⟩
    rcases h1 with h1 | ⟨e1, h1⟩ <;>
      simp [retry_with_backoff, retryAux, h1, h2]

/-- C7 witness: a raise-then-succeed operation. -/
theorem claim_C7_witness :
    (retry_with_backoff
        (fun n => if n == 2 then (.ok (some 7) : Except PyErr (Option Nat))
                  else .error (PyErr.mk "x" none)) 3 5 2 true).sleeps = [5]
    ∧ (retry_with_backoff
        (fun n => if n == 2 then (.ok (some 7) : Except PyErr (Option Nat))
                  else .error (PyErr.mk "x" none)) 3 5 2 true).outcome
        = .ok (some 7) :=
  (claim_C7_backoff_timing
      (fun n => if n == 2 then (.ok (some 7) : Except PyErr (Option Nat))
                else .error (PyErr.mk "x" none)) 7).2
    ⟨Or.inr ⟨_, rfl⟩, rfl⟩

/-! ## Ingestion scenario lemmas -/

theorem findFirstP_isSome_of_mem {α : Type} (p : α → Bool) (l : List α)
    (a : α) (ha : a ∈ l) (hp : p a = true) :
    ∃ b, findFirstP p l = some b := by
  induction l with
  | nil => simp at ha
  | cons x t ih =>
    by_cases hx : p x
    · exact ⟨x, by simp [findFirstP, hx]⟩
    · rcases List.mem_cons.mp ha with rfl | hmem
      · exact absurd hp hx
      · obtain ⟨b, hb⟩ := ih hmem
        exact ⟨b, by simp [findFirstP, hx, hb]⟩

theorem update_product_mongo (db : DBState) (now : PyDateTime) (pid : Nat)
    (u : ProductUpdates) :
    (ProductsCRUD.update_product db now pid u).1.mongo = db.mongo := by
  unfold ProductsCRUD.update_product
  cases h : findFirstP (fun p => p.product_id == pid) db.products <;> simp

theorem update_product_next_id (db : DBState) (now : PyDateTime) (pid : Nat)
    (u : ProductUpdates) :
    (ProductsCRUD.update_product db now pid u).1.next_id = db.next_id := by
  unfold ProductsCRUD.update_product
  cases h : findFirstP (fun p => p.product_id == pid) db.products <;> simp

theorem update_product_found_products (db : DBState) (now : PyDateTime)
    (pid : Nat) (u : ProductUpdates)
    (h : ∃ y, findFirstP (fun p => p.product_id == pid) db.products = some y) :
    (ProductsCRUD.update_product db now pid u).1.products
      = replaceFirstP (fun p => p.product_id == pid)
          (fun p => { p with price := u.price, save := u.save,
                             updated_at := now })
          db.products := by
  obtain ⟨y, hy⟩ := h
  simp [ProductsCRUD.update_product, hy]

/-- The web-code lookup `scrape_url` performs through the service: no
query for a falsy web code, otherwise a first-match scan. -/
theorem service_lookup_wc (db : DBState) (wc : String) :
    ProductService.get_product db none (some wc)
      = if wc = "" then (none, false)
        else (findFirstP (fun p => p.web_code == wc) db.products, true) := by
  by_cases h : wc = ""
  · simp [ProductService.get_product, validate_input_product_id_web_code,
      truthyNat, truthyStr, h]
  · simp [ProductService.get_product, DatabaseHandler.get_product,
      ProductsCRUD.get_product, validate_input_product_id_web_code,
      truthyNat, truthyStr, h]

/-- Both update branches of the decider (price change, or stale calendar
date) produce the same write: relational update then history append. -/
theorem handle_existing_update_eq (db : DBState) (now : PyDateTime)
    (ex : Products) (nd : ProductDetails)
    (hbr : ex.price ≠ nd.price ∨ now.date ≠ ex.updated_at.date) :
    ProductService.handle_existing_product db now ex nd
      = .ok (DatabaseHandler.store_in_mongo
          (ProductsCRUD.update_product db now ex.product_id
            { price := nd.price, save := nd.save }).1 now
          { nd with product_id := some ex.product_id },
         "Product details updated.", 200) := by
  by_cases hp : ex.price = nd.price
  · have hd : now.date ≠ ex.updated_at.date := by
      rcases hbr with hbr | hbr
      · exact absurd hp hbr
      · exact hbr
    simp [ProductService.handle_existing_product, hp, hd,
      DatabaseHandler.update_existing_product, Except.map]
  · simp [ProductService.handle_existing_product, hp,
      DatabaseHandler.update_existing_product, Except.map]

theorem handle_existing_noop_eq (db : DBState) (now : PyDateTime)
    (ex : Products) (nd : ProductDetails)
    (hp : ex.price = nd.price) (hd : now.date = ex.updated_at.date) :
    ProductService.handle_existing_product db now ex nd
      = .ok (db, "Product already updated today.", 200) := by
  simp [ProductService.handle_existing_product, hp, hd]

/-- Ingestion against a found row, update branch. -/
theorem ingest_update_case (db : DBState) (now : PyDateTime) (wc : String)
    (nd : ProductDetails) (ex : Products) (hwc : wc ≠ "")
    (hfind : findFirstP (fun p => p.web_code == wc) db.products = some ex)
    (hbr : ex.price ≠ nd.price ∨ now.date ≠ ex.updated_at.date) :
    ingest db now wc nd
      = .ok (DatabaseHandler.store_in_mongo
          (ProductsCRUD.update_product db now ex.product_id
            { price := nd.price, save := nd.save }).1 now
          { nd with product_id := some ex.product_id },
         IngestOutcome.updated) := by
  unfold ingest
  rw [service_lookup_wc, if_neg hwc, hfind]
  simp [handle_existing_update_eq db now ex nd hbr, Except.map]

/-- Ingestion against a found row, same-day no-op branch. -/
theorem ingest_noop_case (db : DBState) (now : PyDateTime) (wc : String)
    (nd : ProductDetails) (ex : Products) (hwc : wc ≠ "")
    (hfind : findFirstP (fun p => p.web_code == wc) db.products = some ex)
    (hp : ex.price = nd.price) (hd : now.date = ex.updated_at.date) :
    ingest db now wc nd = .ok (db, IngestOutcome.noActionSameDay) := by
  unfold ingest
  rw [service_lookup_wc, if_neg hwc, hfind]
  simp [handle_existing_noop_eq db now ex nd hp hd, Except.map]

/-- Ingestion with no matching row but a duplicate web code in the
table: the insert fails, the fault is swallowed into a 500 result, and
no store changes. -/
theorem ingest_dup_case (db : DBState) (now : PyDateTime) (wc : String)
    (nd : ProductDetails)
    (hnone : (ProductService.get_product db none (some wc)).1 = none)
    (hdup : db.products.any (fun p => p.web_code == nd.web_code) = true) :
    ingest db now wc nd = .ok (db, IngestOutcome.storeFailed) := by
  unfold ingest
  rcases hpair : ProductService.get_product db none (some wc) with ⟨fst, snd⟩
  rw [hpair] at hnone
  simp only at hnone
  subst hnone
  simp [ProductService.store_product, DatabaseHandler.store_new_product,
    ProductsCRUD.insert_product, hdup]

/-- Ingestion with no matching row and a fresh web code: the row and the
history entry are appended; the reported outcome depends on the
truthiness of the assigned key. -/
theorem ingest_fresh_case (db : DBState) (now : PyDateTime) (wc : String)
    (nd : ProductDetails)
    (hnone : (ProductService.get_product db none (some wc)).1 = none)
    (hdup : db.products.any (fun p => p.web_code == nd.web_code) = false) :
    ingest db now wc nd
      = .ok ({ products := db.products ++
                 [{ product_id := db.next_id, web_code := nd.web_code,
                    title := nd.title, model := nd.model, url := nd.url,
                    price := nd.price, save := nd.save, created_at := now,
                    updated_at := now }],
               mongo := db.mongo ++
                 [{ web_code := nd.web_code, price := nd.price,
                    save := nd.save, date := now }],
               next_id := db.next_id + 1 },
             if db.next_id != 0 then IngestOutcome.inserted
             else IngestOutcome.storeFailed) := by
  unfold ingest
  rcases hpair : ProductService.get_product db none (some wc) with ⟨fst, snd⟩
  rw [hpair] at hnone
  simp only at hnone
  subst hnone
  by_cases hz : db.next_id = 0
  · simp [ProductService.store_product, DatabaseHandler.store_new_product,
      ProductsCRUD.insert_product, hdup, DatabaseHandler.store_in_mongo,
      MongoDBClient.insert_data, hz]
  · simp [ProductService.store_product, DatabaseHandler.store_new_product,
      ProductsCRUD.insert_product, hdup, DatabaseHandler.store_in_mongo,
      MongoDBClient.insert_data, hz]

/-- C2: one ingestion call appends exactly one history entry on the
insert and update outcomes and none on the same-day no-op; and two
successive ingestion runs for the same natural key on the same calendar
date with the same measurement append at most one history entry in
total (the second run is always absorbed).  Primary keys are assumed
pairwise distinct, as the table's primary-key constraint guarantees. -/
theorem claim_C2_history_appends (db : DBState) (now : PyDateTime)
    (wc : String) (nd : ProductDetails)
    (hU : db.products.Pairwise (fun a b => a.product_id ≠ b.product_id)) :
    (∀ db1 o, ingest db now wc nd = .ok (db1, o) →
      ((o = IngestOutcome.inserted ∨ o = IngestOutcome.updated) →
        db1.mongo.length = db.mongo.length + 1)
      ∧ (o = IngestOutcome.noActionSameDay → db1.mongo = db.mongo))
    ∧ (∃ db1 o1 db2 o2, ingest db now wc nd = .ok (db1, o1)
        ∧ ingest db1 now wc nd = .ok (db2, o2)
        ∧ db2.mongo.length ≤ db.mongo.length + 1) := by
  by_cases hwc : wc = ""
  case pos =>
    have hnone : (ProductService.get_product db none (some wc)).1 = none := by
      rw [service_lookup_wc, if_pos hwc]
    by_cases hdup : db.products.any (fun p => p.web_code == nd.web_code)
    case pos =>
      have hs := ingest_dup_case db now wc nd hnone hdup
      constructor
      · intro db1 o h
        rw [hs] at h
        simp only [Except.ok.injEq, Prod.mk.injEq] at h
        obtain ⟨rfl, rfl⟩ := h
        constructor
        · rintro (h' | h') <;> simp at h'
        · intro h'; simp at h'
      · exact ⟨db, _, db, _, hs, ingest_dup_case db now wc nd hnone hdup,
          by omega⟩
    case neg =>
      have hs := ingest_fresh_case db now wc nd hnone
        (by simpa using hdup)
      constructor
      · intro db1 o h
        rw [hs] at h
        simp only [Except.ok.injEq, Prod.mk.injEq] at h
        obtain ⟨rfl, rfl⟩ := h
        constructor
        · intro _; simp
        · intro h'
          by_cases hz : db.next_id != 0 <;> simp [hz] at h'
      · refine ⟨_, _, _, _, hs, ingest_dup_case _ now wc nd ?_ ?_, ?_⟩
        · rw [service_lookup_wc, if_pos hwc]
        · simp
        · simp
  case neg =>
    cases hfind : findFirstP (fun p => p.web_code == wc) db.products with
    | some ex =>
      by_cases hnoop : ex.price = nd.price ∧ now.date = ex.updated_at.date
      case pos =>
        have hs := ingest_noop_case db now wc nd ex hwc hfind hnoop.1 hnoop.2
        constructor
        · intro db1 o h
          rw [hs] at h
          simp only [Except.ok.injEq, Prod.mk.injEq] at h
          obtain ⟨rfl, rfl⟩ := h
          constructor
          · rintro (h' | h') <;> simp at h'
          · intro _; rfl
        · exact ⟨db, _, db, _, hs,
            ingest_noop_case db now wc nd ex hwc hfind hnoop.1 hnoop.2,
            by omega⟩
      case neg =>
        have hbr : ex.price ≠ nd.price ∨ now.date ≠ ex.updated_at.date := by
          by_cases hp : ex.price = nd.price
          · right; intro hd; exact hnoop ⟨hp, hd⟩
          · left; exact hp
        have hs := ingest_update_case db now wc nd ex hwc hfind hbr
        have hmongo : (DatabaseHandler.store_in_mongo
            (ProductsCRUD.update_product db now ex.product_id
              { price := nd.price, save := nd.save }).1 now
            { nd with product_id := some ex.product_id }).mongo
            = db.mongo ++ [{ web_code := nd.web_code, price := nd.price,
                             save := nd.save, date := now }] := by
          simp [DatabaseHandler.store_in_mongo, MongoDBClient.insert_data,
            update_product_mongo]
        have hexmem := findFirstP_mem _ _ _ hfind
        have hsome := findFirstP_isSome_of_mem
          (fun p => p.product_id == ex.product_id) db.products ex hexmem
          (by simp)
        have hprod : (DatabaseHandler.store_in_mongo
            (ProductsCRUD.update_product db now ex.product_id
              { price := nd.price, save := nd.save }).1 now
            { nd with product_id := some ex.product_id }).products
            = replaceFirstP (fun p => p.product_id == ex.product_id)
                (fun p => { p with price := nd.price, save := nd.save,
                                   updated_at := now })
                db.products := by
          simp [DatabaseHandler.store_in_mongo, MongoDBClient.insert_data,
            update_product_found_products db now ex.product_id _ hsome]
        have hfind2 : findFirstP (fun p => p.web_code == wc)
            (DatabaseHandler.store_in_mongo
              (ProductsCRUD.update_product db now ex.product_id
                { price := nd.price, save := nd.save }).1 now
              { nd with product_id := some ex.product_id }).products
            = some { ex with price := nd.price, save := nd.save,
                             updated_at := now } := by
          rw [hprod]
          exact findWc_after_pidReplace db.products hU wc ex _ hfind rfl
        constructor
        · intro db1 o h
          rw [hs] at h
          simp only [Except.ok.injEq, Prod.mk.injEq] at h
          obtain ⟨rfl, rfl⟩ := h
          constructor
          · intro _; simp [hmongo]
          · intro h'; simp at h'
        · refine ⟨_, _, _, _, hs, ingest_noop_case _ now wc nd
            { ex with price := nd.price, save := nd.save, updated_at := now }
            hwc hfind2 rfl rfl, ?_⟩
          simp [hmongo]
    | none =>
      have hnone : (ProductService.get_product db none (some wc)).1 = none := by
        rw [service_lookup_wc, if_neg hwc, hfind]
      by_cases hdup : db.products.any (fun p => p.web_code == nd.web_code)
      case pos =>
        have hs := ingest_dup_case db now wc nd hnone hdup
        constructor
        · intro db1 o h
          rw [hs] at h
          simp only [Except.ok.injEq, Prod.mk.injEq] at h
          obtain ⟨rfl, rfl⟩ := h
          constructor
          · rintro (h' | h') <;> simp at h'
          · intro h'; simp at h'
        · exact ⟨db, _, db, _, hs, ingest_dup_case db now wc nd hnone hdup,
            by omega⟩
      case neg =>
        have hs := ingest_fresh_case db now wc nd hnone
          (by simpa using hdup)
        constructor
        · intro db1 o h
          rw [hs] at h
          simp only [Except.ok.injEq, Prod.mk.injEq] at h
          obtain ⟨rfl, rfl⟩ := h
          constructor
          · intro _; simp
          · intro h'
            by_cases hz : db.next_id != 0 <;> simp [hz] at h'
        · by_cases hrow : nd.web_code = wc
          case pos =>
            refine ⟨_, _, _, _, hs, ingest_noop_case _ now wc nd
              { product_id := db.next_id, web_code := nd.web_code,
                title := nd.title, model := nd.model, url := nd.url,
                price := nd.price, save := nd.save, created_at := now,
                updated_at := now } hwc ?_ rfl rfl, ?_⟩
            · show findFirstP (fun p => p.web_code == wc)
                (db.products ++ [_]) = _
              rw [findFirstP_append_single _ _ _ hfind]
              simp [hrow]
            · simp
          case neg =>
            refine ⟨_, _, _, _, hs, ingest_dup_case _ now wc nd ?_ ?_, ?_⟩
            · rw [service_lookup_wc, if_neg hwc]
              show (findFirstP (fun p => p.web_code == wc)
                (db.products ++ [_]), true).1 = none
              rw [findFirstP_append_single _ _ _ hfind]
              simp [hrow]
            · simp
            · simp

/-- C2 witness: two same-day runs against a concrete store. -/
theorem claim_C2_witness :
    ∃ db1 o1 db2 o2, ingest dbEx dEx2 "16004374" ndEx = .ok (db1, o1)
      ∧ ingest db1 dEx2 "16004374" ndEx = .ok (db2, o2)
      ∧ db2.mongo.length ≤ dbEx.mongo.length + 1 :=
  (claim_C2_history_appends dbEx dEx2 "16004374" ndEx (by simp [dbEx])).2

def rawMissingPrice : RawRecord :=
  { title := some "T", model := some "Model:M1",
    web_code := some "Web Code:16004374", price := none, url := some "u",
    save := some "$5.00", date := none }

/-- C9 counterexample: a raw record with no price field is not rejected
with a structured error — the cleaner substitutes the empty-string
default, which converts to 0, and processing succeeds with a zero
price. -/
theorem claim_C9_counterexample :
    ProductProcessor.process_product_data rawMissingPrice
      = { title := "T", model := "M1", web_code := "16004374", url := "u",
          price := 0, save := 500, product_id := none } := by
  decide

/-- C9 amended: a record missing the price (or discount) field proceeds
with a substituted default of 0 rather than raising; and an insert-time
storage fault is not raised to the worker — `store_product` catches it
and returns the failure result `(None, "Internal server error", 500)`
with the stores unchanged. -/
theorem claim_C9_amended_default_and_swallow :
    (∀ raw : RawRecord, raw.price = none →
      (ProductProcessor.process_product_data raw).price = 0)
    ∧ (∀ (db : DBState) (now : PyDateTime) (pd : ProductDetails),
      db.products.any (fun p => p.web_code == pd.web_code) = true →
      ProductService.store_product db now pd
        = (db, none, some "Internal server error", 500)) := by
  constructor
  · intro raw h
    simp only [ProductProcessor.process_product_data,
      DataCleaner.clean_product_item, h]
    rfl
  · intro db now pd hdup
    simp [ProductService.store_product, DatabaseHandler.store_new_product,
      ProductsCRUD.insert_product, hdup]

/-- C9 amended witness: the missing-price record and a duplicate-key
insert fault. -/
theorem claim_C9_amended_witness :
    (ProductProcessor.process_product_data rawMissingPrice).price = 0
    ∧ ProductService.store_product dbEx dEx ndEx
        = (dbEx, none, some "Internal server error", 500) :=
  ⟨claim_C9_amended_default_and_swallow.1 rawMissingPrice rfl,
   claim_C9_amended_default_and_swallow.2 dbEx dEx ndEx (by decide)⟩
